import Mathlib

/-!
Shallow embedding of the telemetry generator in `src/generate_vehicle_data.py`.

Conventions of the embedding:
* Python floats are modelled as exact rationals (`ℚ`); decimal literals such as
  `0.015`, `9.81`, `1e-6` become the exact rationals `3/200`, `981/100`,
  `1/1000000`.
* `np.sin`, `np.exp` and `np.pi` have no computable exact counterpart on `ℚ`;
  they are supplied as opaque-to-the-theorems fields of an `Oracle` record,
  so every theorem quantifies over them and concrete witnesses instantiate
  them with explicit functions.
* Every call to `np.random.normal(0, sigma, n)` is modelled as reading an
  arbitrary stream `ℕ → ℚ` from the `Oracle` (one stream per call site;
  the standard deviation only parametrises the distribution, which has no
  exact-arithmetic content).
* Fallible numpy/pandas operations are modelled with `Except String`:
  `np.linspace` with a negative sample count raises, `np.convolve` with an
  empty input raises, and the `pandas.DataFrame` constructor raises when the
  columns have different lengths.  (In the Python code a duration giving
  1 ≤ samples < 5 actually fails slightly earlier, inside the fuel model,
  by an array-broadcast error; the model surfaces that mismatch at the
  DataFrame length check instead.  Both sides fail; no claim depends on the
  failing stage for those durations.)
* Python `int(x)` truncates toward zero; `numpy` boolean-mask selection on a
  sorted time array is order-preserving selection, modelled with `List.filter`;
  numpy slice assignment `a[s:e] = v` (with `e - s = len v`, `e ≤ len a`) is
  modelled by `setSlice`.
-/

namespace VehicleData

/-- Environment of a generation run: the transcendental primitives used by the
Python code (`np.sin`, `np.exp`, `np.pi`) and one arbitrary stream of draws per
`np.random.normal` call site. -/
structure Oracle where
  sin : ℚ → ℚ
  exp : ℚ → ℚ
  pi : ℚ
  /-- draws added to the whole speed series (sigma 2 for highway, 1 for urban) -/
  noiseSpeed : ℕ → ℚ
  /-- draws added inside even (highway-like) segments of the mixed profile, per segment index (sigma 3) -/
  noiseSeg : ℕ → ℕ → ℚ
  /-- draws added to the engine-rpm series (sigma 50) -/
  noiseRpm : ℕ → ℚ
  /-- draws added to the fuel-consumption series (sigma 0.5) -/
  noiseFuel : ℕ → ℚ

/-- Python `int(q)`: truncation toward zero. -/
def truncQ (q : ℚ) : ℤ :=
  if 0 ≤ q then ⌊q⌋ else ⌈q⌉

/-- Model of `np.linspace(start, stop, num)` for a non-negative sample count
(endpoint included, evenly spaced). -/
def linspaceNN (start stop : ℚ) (num : ℕ) : List ℚ :=
  if num = 0 then []
  else if num = 1 then [start]
  else (List.range num).map (fun (i : ℕ) => start + (stop - start) * (i : ℚ) / ((num : ℚ) - 1))

/-- Model of `np.linspace(start, stop, num)` with a possibly negative count, which
numpy rejects with a `ValueError`. -/
def linspace (start stop : ℚ) (num : ℤ) : Except String (List ℚ) :=
  if num < 0 then .error "ValueError: Number of samples must be non-negative"
  else .ok (linspaceNN start stop num.toNat)

/-- numpy slice assignment `l[s : s + len vals] = vals` (callers establish
`s + len vals ≤ len l`). -/
def setSlice {α : Type} (l : List α) (s : ℕ) (vals : List α) : List α :=
  l.take s ++ vals ++ l.drop (s + vals.length)

/-- Python slice `l[s:e]` (callers establish `s ≤ e ≤ len l`). -/
def slice {α : Type} (l : List α) (s e : ℕ) : List α :=
  (l.take e).drop s

/-- Conversion `speed * (1000 / 3600)` from km/h to m/s, applied elementwise. -/
def speedToMs (speed : List ℚ) : List ℚ :=
  speed.map (· * (1000 / 3600))

/-- Model of `generate_speed_profile(duration, profile_type, max_speed)`
(src/generate_vehicle_data.py lines 7-99). -/
def generate_speed_profile (duration : ℚ) (profile_type : String) (max_speed : ℚ)
    (O : Oracle) : Except String (List ℚ) :=
  match linspace 0 duration (truncQ (duration * 10)) with
  | .error e => .error e
  | .ok time =>
    let speed :=
      if profile_type = "highway" then
        -- acceleration phase for t ≤ 30, cruising phase for t > 30
        let accel_time := time.filter (fun t => t ≤ 30)
        let accel_speed := accel_time.map (fun t => max_speed * (1 - O.exp (-t / 10)))
        let cruise_time := time.filter (fun t => ¬ t ≤ 30)
        let cruise_speed := cruise_time.map (fun t => max_speed + O.sin (t / 5) * 5)
        let sp := accel_speed ++ cruise_speed
        List.zipWith (· + ·) sp ((List.range sp.length).map O.noiseSpeed)
      else if profile_type = "urban" then
        let sp0 := List.replicate time.length (0 : ℚ)
        let sp := (List.range (truncQ (duration / 60)).toNat).foldl (fun sp i =>
          let start_idx := i * 60 * 10
          let end_idx := min ((i + 1) * 60 * 10) sp.length
          let t0 := time.getD start_idx 0
          let cycle_time := (slice time start_idx end_idx).map (fun t => t - t0)
          let cycle_speed := cycle_time.map (fun t => 50 * (O.sin (t * O.pi / 60)) ^ 2)
          setSlice sp start_idx cycle_speed) sp0
        List.zipWith (· + ·) sp ((List.range sp.length).map O.noiseSpeed)
      else
        -- mixed profile
        let sp0 := List.replicate time.length (0 : ℚ)
        let segment_duration : ℕ := 120
        let num_segments := (truncQ (duration / 120)).toNat
        (List.range num_segments).foldl (fun sp i =>
          let start_idx := i * segment_duration * 10
          let end_idx := min ((i + 1) * segment_duration * 10) sp.length
          let segment_time := end_idx - start_idx
          let segment_speed :=
            if i % 2 = 0 then
              -- highway-like segment, with per-segment noise
              let base := (linspaceNN 0 O.pi segment_time).map (fun x => 100 + 20 * O.sin x)
              List.zipWith (· + ·) base ((List.range segment_time).map (O.noiseSeg i))
            else
              -- urban-like segment of 60 s stop-go sub-cycles, no noise here
              (List.range (segment_time / 600)).foldl (fun seg j =>
                let stop_start := j * 600
                let stop_end := min ((j + 1) * 600) segment_time
                let cycle_length := stop_end - stop_start
                let cycle_time := linspaceNN 0 1 cycle_length
                setSlice seg stop_start
                  (cycle_time.map (fun x => 60 * (O.sin (x * O.pi)) ^ 2)))
                (List.replicate segment_time (0 : ℚ))
          setSlice sp start_idx segment_speed) sp0
    -- ensure no negative speeds
    .ok (speed.map (fun x => max x 0))

/-- The raw backward finite difference of `calculate_acceleration`
(lines 113-118): `acceleration[0] = 0`, `acceleration[i] = (v_ms[i] - v_ms[i-1]) / time_step`. -/
def rawAcceleration (speed : List ℚ) (time_step : ℚ) : List ℚ :=
  let speed_ms := speedToMs speed
  (List.range speed.length).map (fun i =>
    if i = 0 then 0 else (speed_ms.getD i 0 - speed_ms.getD (i - 1) 0) / time_step)

/-- Full discrete convolution `np.convolve(a, v)` (zero-padded outside the
input).  numpy swaps the arguments so that the longer one comes first; the
full convolution is symmetric, so the swap is omitted here. -/
def npConvolveFull (a v : List ℚ) : List ℚ :=
  (List.range (a.length + v.length - 1)).map (fun k =>
    ((List.range a.length).map (fun j =>
      a.getD j 0 * (if j ≤ k ∧ k - j < v.length then v.getD (k - j) 0 else 0))).sum)

/-- Model of `np.convolve(a, v, mode='same')`: the central `max |a| |v|` entries
of the full convolution; raises on an empty input. -/
def npConvolveSame (a v : List ℚ) : Except String (List ℚ) :=
  if a.length = 0 ∨ v.length = 0 then .error "ValueError: a cannot be empty"
  else .ok (((npConvolveFull a v).drop ((min a.length v.length - 1) / 2)).take
    (max a.length v.length))

/-- Model of `calculate_acceleration(speed, time_step=0.1)` (lines 102-124):
backward difference then `np.convolve(acceleration, np.ones(5)/5, mode='same')`. -/
def calculate_acceleration (speed : List ℚ) (time_step : ℚ := 1/10) :
    Except String (List ℚ) :=
  npConvolveSame (rawAcceleration speed time_step) (List.replicate 5 ((1 : ℚ)/5))

/-- The fixed gear-selection thresholds of `calculate_engine_rpm` (line 150). -/
def speed_thresholds : List ℚ := [0, 20, 40, 60, 80, 110]

/-- The inner gear-selection loop of `calculate_engine_rpm` (lines 152-158):
start at gear 1, and for each `j` in `range 6` overwrite with `j+1` whenever
`speed ≥ thresholds[j]` and `j < len(gear_ratios)` (no early exit). -/
def gearSelect (v : ℚ) (numRatios : ℕ) : ℕ :=
  (List.range 6).foldl
    (fun gear j => if speed_thresholds.getD j 0 ≤ v ∧ j < numRatios then j + 1 else gear) 1

/-- The wheel-rpm series of `calculate_engine_rpm` (line 144):
`speed_ms / (wheel_diameter / 2) * 60 / (2 * pi)`. -/
def wheel_rpm (speed : List ℚ) (wheel_diameter : ℚ) (O : Oracle) : List ℚ :=
  (speedToMs speed).map (fun v => v / (wheel_diameter / 2) * 60 / (2 * O.pi))

/-- The per-sample engine rpm of `calculate_engine_rpm` before the Gaussian
perturbation and the idle floor (lines 147-163): `0` unless the guard
`gear ≤ len(gear_ratios)` holds, in which case
`wheel_rpm[i] * gear_ratios[gear-1] * final_drive_ratio`. -/
def rpmPreNoise (speed gear_ratios : List ℚ) (final_drive_ratio wheel_diameter : ℚ)
    (O : Oracle) : List ℚ :=
  (List.range speed.length).map (fun i =>
    let gear := gearSelect (speed.getD i 0) gear_ratios.length
    if gear ≤ gear_ratios.length then
      (wheel_rpm speed wheel_diameter O).getD i 0 * gear_ratios.getD (gear - 1) 0 *
        final_drive_ratio
    else 0)

/-- Model of `calculate_engine_rpm(speed, gear_ratios, final_drive_ratio,
wheel_diameter=0.7)` (lines 127-172): gear-based rpm, plus noise, floored at
the 800 rpm idle. -/
def calculate_engine_rpm (speed gear_ratios : List ℚ) (final_drive_ratio : ℚ)
    (wheel_diameter : ℚ) (O : Oracle) : List ℚ :=
  let rpm := rpmPreNoise speed gear_ratios final_drive_ratio wheel_diameter O
  let rpm := List.zipWith (· + ·) rpm ((List.range rpm.length).map O.noiseRpm)
  rpm.map (fun x => max x 800)

/-- Model of `calculate_fuel_consumption(speed, acceleration, rpm,
engine_efficiency=0.35, vehicle_mass=1500)` (lines 175-248).  The `rpm`
argument is accepted but unused, exactly as in the source. -/
def calculate_fuel_consumption (speed acceleration rpm : List ℚ)
    (engine_efficiency vehicle_mass : ℚ) (O : Oracle) : List ℚ :=
  let speed_ms := speedToMs speed
  let c_r : ℚ := 15/1000
  let F_rolling := c_r * vehicle_mass * (981/100)
  let F_air := speed_ms.map (fun v => (1/2) * (49/40) * (3/10) * (11/5) * v ^ 2)
  let F_accel := acceleration.map (fun a => vehicle_mass * a)
  let F_total := List.zipWith (fun fa facc => F_rolling + fa + facc) F_air F_accel
  let power := List.zipWith (fun f v => f * v) F_total speed_ms
  let power := power.map (fun p => max p 0)
  let fuel_energy_density : ℚ := 34800000
  let fuel_rate := power.map (fun p => p / (fuel_energy_density * engine_efficiency))
  -- fuel_rate[speed < 3] = idle_fuel_rate / 3600
  let fuel_rate := (List.range fuel_rate.length).map (fun i =>
    if speed.getD i 0 < 3 then ((1 : ℚ)/2) / 3600 else fuel_rate.getD i 0)
  -- fuel_consumption = fuel_rate / max(speed / 3600, 1e-6) * 100
  let fuel := (List.range fuel_rate.length).map (fun i =>
    fuel_rate.getD i 0 / (max (speed.getD i 0 / 3600) (1/1000000)) * 100)
  -- cap at 50 (before the noise), then add noise, then clamp below at 0
  let fuel := fuel.map (fun x => min x 50)
  let fuel := List.zipWith (· + ·) fuel ((List.range fuel.length).map O.noiseFuel)
  fuel.map (fun x => max x 0)

/-- Model of `np.cumsum`. -/
def cumsum (l : List ℚ) : List ℚ :=
  (l.scanl (· + ·) 0).tail

/-- Model of `calculate_distance(speed, time_step=0.1)` (lines 251-271). -/
def calculate_distance (speed : List ℚ) (time_step : ℚ := 1/10) : List ℚ :=
  let speed_ms := speedToMs speed
  let distance_increments := speed_ms.map (fun v => v * time_step)
  cumsum distance_increments

/-- Per-vehicle parameter record (lines 295-314). -/
structure VehicleParams where
  max_speed : ℚ
  vehicle_mass : ℚ
  engine_efficiency : ℚ
  gear_ratios : List ℚ
  final_drive_ratio : ℚ

/-- Parameter lookup of `generate_vehicle_test_data`: `sedan`, `suv`, and the
default (`else`) branch, which is the sports car. -/
def vehicleParams (vehicle_type : String) : VehicleParams :=
  if vehicle_type = "sedan" then
    { max_speed := 180, vehicle_mass := 1500, engine_efficiency := 35/100,
      gear_ratios := [35/10, 2, 15/10, 1, 75/100], final_drive_ratio := 37/10 }
  else if vehicle_type = "suv" then
    { max_speed := 160, vehicle_mass := 2200, engine_efficiency := 32/100,
      gear_ratios := [38/10, 22/10, 16/10, 1, 7/10], final_drive_ratio := 41/10 }
  else
    { max_speed := 250, vehicle_mass := 1300, engine_efficiency := 38/100,
      gear_ratios := [32/10, 2, 14/10, 1, 8/10, 6/10], final_drive_ratio := 35/10 }

/-- The assembled output table: the six numeric columns plus the three
per-row metadata columns. -/
structure ResultTable where
  time : List ℚ
  speed : List ℚ
  acceleration : List ℚ
  engineRPM : List ℚ
  fuelConsumption : List ℚ
  distance : List ℚ
  testID : List String
  vehicleType : List String
  profileType : List String
deriving DecidableEq

/-- Model of `generate_vehicle_test_data(duration, profile_type, vehicle_type)`
(lines 274-344).  The optional CSV sink is out of scope and omitted.  The
`pandas.DataFrame` constructor raises when the column arrays have different
lengths; the metadata assignment broadcasts one string to every row. -/
def generate_vehicle_test_data (duration : ℚ) (profile_type vehicle_type : String)
    (O : Oracle) : Except String ResultTable :=
  match linspace 0 duration (truncQ (duration * 10)) with
  | .error e => .error e
  | .ok time =>
    let p := vehicleParams vehicle_type
    match generate_speed_profile duration profile_type p.max_speed O with
    | .error e => .error e
    | .ok speed =>
      match calculate_acceleration speed (1/10) with
      | .error e => .error e
      | .ok acceleration =>
        let engine_rpm := calculate_engine_rpm speed p.gear_ratios p.final_drive_ratio
          (7/10) O
        let fuel_consumption := calculate_fuel_consumption speed acceleration engine_rpm
          p.engine_efficiency p.vehicle_mass O
        let distance := calculate_distance speed (1/10)
        if speed.length = time.length ∧ acceleration.length = time.length ∧
            engine_rpm.length = time.length ∧ fuel_consumption.length = time.length ∧
            distance.length = time.length then
          .ok { time := time, speed := speed, acceleration := acceleration,
                engineRPM := engine_rpm, fuelConsumption := fuel_consumption,
                distance := distance,
                testID := List.replicate time.length (vehicle_type ++ "_" ++ profile_type),
                vehicleType := List.replicate time.length vehicle_type,
                profileType := List.replicate time.length profile_type }
        else .error "ValueError: All arrays must be of the same length"

/-- Spec-side definition for claim C6, following the spec words: a centered
window-5 moving average where each boundary sample averages over only the
neighbors that exist within the series bounds (sum of the available window
entries divided by their count). -/
def smoothAvailableNeighbors (a : List ℚ) : List ℚ :=
  (List.range a.length).map (fun i =>
    let w := (List.range a.length).filter (fun j => i ≤ j + 2 ∧ j ≤ i + 2)
    ((w.map (fun j => a.getD j 0)).sum) / (w.length : ℚ))

/-- What the code's smoothing actually computes (the amended form of C6):
zero-padded window sums — each output is the sum of the window entries that
fall inside the series, always divided by 5. -/
def zeroPadSmooth (a : List ℚ) : List ℚ :=
  (List.range a.length).map (fun i =>
    (((List.range a.length).filter (fun j => i ≤ j + 2 ∧ j ≤ i + 2)).map
      (fun j => a.getD j 0)).sum / 5)

/-- Concrete oracle with every primitive and every noise stream identically 0. -/
def zeroOracle : Oracle :=
  { sin := fun _ => 0, exp := fun _ => 0, pi := 0,
    noiseSpeed := fun _ => 0, noiseSeg := fun _ _ => 0,
    noiseRpm := fun _ => 0, noiseFuel := fun _ => 0 }

/-- Concrete oracle whose fuel-noise stream is identically 1. -/
def fuelNoiseOracle : Oracle :=
  { zeroOracle with noiseFuel := fun _ => 1 }

/-! ### Basic helper lemmas -/

lemma linspaceNN_length (start stop : ℚ) (num : ℕ) :
    (linspaceNN start stop num).length = num := by
  unfold linspaceNN
  split
  · simp [*]
  · split
    · simp [*]
    · rw [List.length_map, List.length_range]

lemma linspace_ok {start stop : ℚ} {num : ℤ} {l : List ℚ}
    (h : linspace start stop num = .ok l) :
    0 ≤ num ∧ l = linspaceNN start stop num.toNat := by
  unfold linspace at h
  split at h
  · exact absurd h (by simp)
  · exact ⟨by omega, by injection h with h; exact h.symm⟩

lemma linspace_of_nonneg {num : ℤ} (start stop : ℚ) (h : 0 ≤ num) :
    linspace start stop num = .ok (linspaceNN start stop num.toNat) := by
  unfold linspace
  rw [if_neg (by omega)]

/-- Inversion of a successful run of the orchestrator: names of all the
intermediate stage outputs, the length agreement enforced by the DataFrame
constructor, and the shape of the assembled table. -/
lemma gen_ok_elim {d : ℚ} {pt vt : String} {O : Oracle} {t : ResultTable}
    (h : generate_vehicle_test_data d pt vt O = .ok t) :
    ∃ time speed acceleration,
      linspace 0 d (truncQ (d * 10)) = .ok time ∧
      generate_speed_profile d pt (vehicleParams vt).max_speed O = .ok speed ∧
      calculate_acceleration speed (1/10) = .ok acceleration ∧
      speed.length = time.length ∧ acceleration.length = time.length ∧
      (calculate_engine_rpm speed (vehicleParams vt).gear_ratios
        (vehicleParams vt).final_drive_ratio (7/10) O).length = time.length ∧
      (calculate_fuel_consumption speed acceleration
        (calculate_engine_rpm speed (vehicleParams vt).gear_ratios
          (vehicleParams vt).final_drive_ratio (7/10) O)
        (vehicleParams vt).engine_efficiency (vehicleParams vt).vehicle_mass O).length
        = time.length ∧
      (calculate_distance speed (1/10)).length = time.length ∧
      t = { time := time, speed := speed, acceleration := acceleration,
            engineRPM := calculate_engine_rpm speed (vehicleParams vt).gear_ratios
              (vehicleParams vt).final_drive_ratio (7/10) O,
            fuelConsumption := calculate_fuel_consumption speed acceleration
              (calculate_engine_rpm speed (vehicleParams vt).gear_ratios
                (vehicleParams vt).final_drive_ratio (7/10) O)
              (vehicleParams vt).engine_efficiency (vehicleParams vt).vehicle_mass O,
            distance := calculate_distance speed (1/10),
            testID := List.replicate time.length (vt ++ "_" ++ pt),
            vehicleType := List.replicate time.length vt,
            profileType := List.replicate time.length pt } := by
  cases htime : linspace 0 d (truncQ (d * 10)) with
  | error e =>
    simp only [generate_vehicle_test_data, htime] at h
    exact absurd h (by simp)
  | ok time =>
    cases hspeed : generate_speed_profile d pt (vehicleParams vt).max_speed O with
    | error e =>
      simp only [generate_vehicle_test_data, htime, hspeed] at h
      exact absurd h (by simp)
    | ok speed =>
      cases haccel : calculate_acceleration speed (1/10) with
      | error e =>
        simp only [generate_vehicle_test_data, htime, hspeed, haccel] at h
        exact absurd h (by simp)
      | ok accel =>
        simp only [generate_vehicle_test_data, htime, hspeed, haccel] at h
        split at h
        next hc =>
          injection h with h
          exact ⟨time, speed, accel, rfl, rfl, haccel, hc.1, hc.2.1, hc.2.2.1,
            hc.2.2.2.1, hc.2.2.2.2, h.symm⟩
        next hc => exact absurd h (by simp)

lemma chain'_scanl_add (init : ℚ) (l : List ℚ) (h : ∀ x ∈ l, 0 ≤ x) :
    List.Chain' (· ≤ ·) (l.scanl (· + ·) init) := by
  induction l generalizing init with
  | nil => simp
  | cons x xs ih =>
    rw [List.scanl_cons, List.singleton_append, List.chain'_cons']
    refine ⟨?_, ih (init + x) (fun z hz => h z (List.mem_cons_of_mem _ hz))⟩
    intro y hy
    have hx : 0 ≤ x := h x (List.mem_cons_self x xs)
    cases xs with
    | nil =>
      rw [List.scanl_nil] at hy
      simp only [List.head?_cons, Option.mem_def, Option.some.injEq] at hy
      subst hy; linarith
    | cons b bs =>
      rw [List.scanl_cons, List.singleton_append] at hy
      simp only [List.head?_cons, Option.mem_def, Option.some.injEq] at hy
      subst hy; linarith

lemma calculate_distance_chain {speed : List ℚ} (h : ∀ x ∈ speed, 0 ≤ x) {ts : ℚ}
    (hts : 0 ≤ ts) : List.Chain' (· ≤ ·) (calculate_distance speed ts) := by
  unfold calculate_distance cumsum
  apply List.Chain'.tail
  apply chain'_scanl_add
  intro x hx
  simp only [speedToMs, List.map_map, List.mem_map, Function.comp] at hx
  obtain ⟨v, hv, rfl⟩ := hx
  have hv0 := h v hv
  have : (0:ℚ) ≤ v * (1000 / 3600) := by positivity
  exact mul_nonneg this hts

lemma generate_speed_profile_ok_nonneg {d : ℚ} {pt : String} {ms : ℚ} {O : Oracle}
    {sp : List ℚ} (h : generate_speed_profile d pt ms O = .ok sp) :
    ∀ x ∈ sp, 0 ≤ x := by
  cases htime : linspace 0 d (truncQ (d * 10)) with
  | error e =>
    simp only [generate_speed_profile, htime] at h
    exact absurd h (by simp)
  | ok time =>
    simp only [generate_speed_profile, htime] at h
    injection h with h
    subst h
    intro x hx
    simp only [List.mem_map] at hx
    obtain ⟨y, _, rfl⟩ := hx
    exact le_max_right y 0

lemma truncQ_nonneg {q : ℚ} (h : 0 ≤ q) : 0 ≤ truncQ q := by
  unfold truncQ
  rw [if_pos h]
  exact Int.floor_nonneg.mpr h

lemma truncQ_nonpos {q : ℚ} (h : q ≤ 0) : truncQ q ≤ 0 := by
  unfold truncQ
  split
  · have hq : q = 0 := le_antisymm h (by assumption)
    subst hq; simp
  · exact Int.ceil_le.mpr (by exact_mod_cast h)

/-- With a zero sample count the speed profile is the empty series for every
profile type (the per-profile loops all run zero times). -/
lemma gsp_empty {d : ℚ} (pt : String) (ms : ℚ) (O : Oracle)
    (h : truncQ (d * 10) = 0) (hd : d ≤ 0) :
    generate_speed_profile d pt ms O = .ok [] := by
  have hlin : linspace 0 d (truncQ (d * 10)) = .ok [] := by
    rw [linspace_of_nonneg 0 d (le_of_eq h.symm), h]
    simp [linspaceNN]
  have h60 : (truncQ (d / 60)).toNat = 0 :=
    Int.toNat_of_nonpos (truncQ_nonpos (div_nonpos_of_nonpos_of_nonneg hd (by norm_num)))
  have h120 : (truncQ (d / 120)).toNat = 0 :=
    Int.toNat_of_nonpos (truncQ_nonpos (div_nonpos_of_nonpos_of_nonneg hd (by norm_num)))
  simp only [generate_speed_profile, hlin]
  by_cases hp : pt = "highway"
  · simp [hp]
  · by_cases hu : pt = "urban"
    · simp [hp, hu, h60]
    · simp [hp, hu, h120]

lemma calculate_acceleration_nil (ts : ℚ) :
    calculate_acceleration [] ts = .error "ValueError: a cannot be empty" := by
  unfold calculate_acceleration rawAcceleration npConvolveSame
  simp [speedToMs]

/-- Every non-positive duration makes the pipeline fail: negative sample
counts abort in `linspace`, a zero sample count aborts in the smoothing
convolution of `calculate_acceleration` (after the speed profile has already
been generated). -/
lemma gen_nonpos_error {d : ℚ} (hd : d ≤ 0) (pt vt : String) (O : Oracle) :
    (generate_vehicle_test_data d pt vt O).toOption = none := by
  have htp : truncQ (d * 10) ≤ 0 := truncQ_nonpos (by nlinarith)
  by_cases h0 : truncQ (d * 10) < 0
  · have hl : linspace 0 d (truncQ (d * 10)) =
        .error "ValueError: Number of samples must be non-negative" := by
      unfold linspace
      rw [if_pos h0]
    simp [generate_vehicle_test_data, hl, Except.toOption]
  · have h0' : truncQ (d * 10) = 0 := le_antisymm htp (not_lt.mp h0)
    have hl : linspace 0 d (truncQ (d * 10)) = .ok [] := by
      rw [linspace_of_nonneg 0 d (le_of_eq h0'.symm), h0']
      simp [linspaceNN]
    simp [generate_vehicle_test_data, hl, gsp_empty pt (vehicleParams vt).max_speed O h0' hd,
      calculate_acceleration_nil, Except.toOption]

/-- An overwrite fold (`acc := j + 1` whenever `P j`, no early exit) over
`range (n+1)` starting at `1` lands on the greatest qualifying index, plus one. -/
lemma foldl_overwrite_eq_findGreatest (P : ℕ → Prop) [DecidablePred P] (n : ℕ) :
    (List.range (n + 1)).foldl (fun acc j => if P j then j + 1 else acc) 1
      = Nat.findGreatest P n + 1 := by
  induction n with
  | zero =>
    rw [show List.range (0 + 1) = [0] from rfl]
    by_cases h : P 0 <;> simp [h]
  | succ n ih =>
    rw [List.range_succ, List.foldl_append, ih, List.foldl_cons, List.foldl_nil]
    by_cases h : P (n + 1) <;> simp [Nat.findGreatest_succ, h]

/-- The overwrite loop of the gear selection computes the greatest qualifying
threshold index, plus one. -/
lemma gearSelect_eq_findGreatest (v : ℚ) (g : ℕ) :
    gearSelect v g =
      Nat.findGreatest (fun j => speed_thresholds.getD j 0 ≤ v ∧ j < g) 5 + 1 :=
  foldl_overwrite_eq_findGreatest (fun j => speed_thresholds.getD j 0 ≤ v ∧ j < g) 5

lemma gearSelect_pos (v : ℚ) (g : ℕ) : 1 ≤ gearSelect v g := by
  rw [gearSelect_eq_findGreatest]
  omega

lemma gearSelect_le {v : ℚ} {g : ℕ} (hg : 1 ≤ g) (hv : 0 ≤ v) : gearSelect v g ≤ g := by
  rw [gearSelect_eq_findGreatest]
  have hP0 : speed_thresholds.getD 0 0 ≤ v ∧ 0 < g := by
    refine ⟨?_, hg⟩
    show (0 : ℚ) ≤ v
    exact hv
  have := Nat.findGreatest_spec (n := 5)
    (P := fun j => speed_thresholds.getD j 0 ≤ v ∧ j < g) (Nat.zero_le 5) hP0
  omega

/-- The per-sample pre-noise rpm: the guard always passes (for a non-empty
gear list and non-negative speed), and the rpm is the wheel rpm scaled by the
selected gear ratio and the final drive ratio. -/
lemma rpmPreNoise_getD {speed gear_ratios : List ℚ} {fdr wd : ℚ} {O : Oracle} {i : ℕ}
    (hi : i < speed.length) (hv : 0 ≤ speed.getD i 0) (hr : gear_ratios ≠ []) :
    (rpmPreNoise speed gear_ratios fdr wd O).getD i 0 =
      (wheel_rpm speed wd O).getD i 0 *
        gear_ratios.getD (gearSelect (speed.getD i 0) gear_ratios.length - 1) 0 * fdr := by
  have hg : 1 ≤ gear_ratios.length := by
    cases gear_ratios with
    | nil => exact absurd rfl hr
    | cons a l => simp
  have hle := gearSelect_le hg hv
  have hlen : i < (rpmPreNoise speed gear_ratios fdr wd O).length := by
    unfold rpmPreNoise
    simpa using hi
  rw [List.getD_eq_getElem _ _ hlen]
  unfold rpmPreNoise
  simp only [List.getElem_map, List.getElem_range]
  rw [if_pos hle]

lemma fuel_getD_eq {speed acceleration rpm : List ℚ} {eff mass : ℚ} {O : Oracle} {i : ℕ}
    (hi : i < (calculate_fuel_consumption speed acceleration rpm eff mass O).length) :
    ∃ x, (calculate_fuel_consumption speed acceleration rpm eff mass O).getD i 0 =
      max (min x 50 + O.noiseFuel i) 0 := by
  rw [List.getD_eq_getElem _ _ hi]
  unfold calculate_fuel_consumption
  simp only [List.getElem_map, List.getElem_zipWith, List.getElem_range]
  exact ⟨_, rfl⟩

lemma fuel_bounds {speed acceleration rpm : List ℚ} {eff mass : ℚ} {O : Oracle} {i : ℕ}
    (hi : i < (calculate_fuel_consumption speed acceleration rpm eff mass O).length) :
    0 ≤ (calculate_fuel_consumption speed acceleration rpm eff mass O).getD i 0 ∧
      (calculate_fuel_consumption speed acceleration rpm eff mass O).getD i 0 ≤
        max (50 + O.noiseFuel i) 0 := by
  obtain ⟨x, hx⟩ := fuel_getD_eq hi
  rw [hx]
  refine ⟨le_max_right _ _, ?_⟩
  exact max_le_max (add_le_add_right (min_le_right x 50) _) le_rfl

lemma linspaceNN_step {start stop : ℚ} {num : ℕ} {i : ℕ} (h : i + 1 < num) :
    (linspaceNN start stop num).getD (i + 1) 0 - (linspaceNN start stop num).getD i 0
      = (stop - start) / ((num : ℚ) - 1) := by
  unfold linspaceNN
  rw [if_neg (by omega), if_neg (by omega)]
  rw [List.getD_eq_getElem _ _ (by simpa using h),
    List.getD_eq_getElem _ _ (by simp; omega)]
  simp only [List.getElem_map, List.getElem_range]
  push_cast
  ring

/-- A profile type taking the mixed (`else`) branch, with `0 < duration < 120`:
the segment loop runs zero times and the series stays identically zero. -/
lemma gsp_else_small {d : ℚ} (hd0 : 0 < d) (hd : d < 120) {pt : String}
    (hp : ¬pt = "highway") (hu : ¬pt = "urban") (ms : ℚ) (O : Oracle) :
    generate_speed_profile d pt ms O =
      .ok (List.replicate (truncQ (d * 10)).toNat 0) := by
  have htp : (0 : ℤ) ≤ truncQ (d * 10) := truncQ_nonneg (by positivity)
  have hseg : (truncQ (d / 120)).toNat = 0 := by
    have : truncQ (d / 120) = 0 := by
      unfold truncQ
      rw [if_pos (by positivity)]
      rw [Int.floor_eq_zero_iff]
      constructor
      · positivity
      · rw [div_lt_one (by norm_num)]
        exact hd
    rw [this]
    rfl
  rw [generate_speed_profile, linspace_of_nonneg 0 d htp]
  simp only [hseg, List.range_zero, List.foldl_nil, linspaceNN_length, Except.ok.injEq]
  rw [if_neg hp, if_neg hu, List.map_replicate]
  simp

/-- Mixed profile with `0 < duration < 120`: the segment loop runs zero times
and the series stays identically zero. -/
lemma gsp_mixed_small {d : ℚ} (hd0 : 0 < d) (hd : d < 120) (ms : ℚ) (O : Oracle) :
    generate_speed_profile d "mixed" ms O =
      .ok (List.replicate (truncQ (d * 10)).toNat 0) :=
  gsp_else_small hd0 hd (by decide) (by decide) ms O

lemma replicate_getD {α : Type} {m n : ℕ} {x d : α} (h : n < m) :
    (List.replicate m x).getD n d = x := by
  rw [List.getD_eq_getElem _ _ (by simpa using h)]
  simp

lemma sum_map_ite_filter {α : Type} (p : α → Prop) [DecidablePred p] (f : α → ℚ)
    (l : List α) :
    (l.map (fun x => if p x then f x else 0)).sum
      = ((l.filter (fun x => decide (p x))).map f).sum := by
  induction l with
  | nil => simp
  | cons x xs ih => by_cases hx : p x <;> simp [hx, ih]

/-- The code's `same`-mode convolution with the kernel `ones(5)/5`, on a series
of length at least 5, is exactly the zero-padded window-sum smoother: entry `i`
is the sum of the raw entries at indices within distance 2 that exist, divided
by 5 regardless of how many exist. -/
lemma npConvolveSame_kernel5 {a : List ℚ} (h : 5 ≤ a.length) :
    npConvolveSame a (List.replicate 5 ((1 : ℚ)/5)) = .ok (zeroPadSmooth a) := by
  unfold npConvolveSame
  rw [if_neg (by rw [List.length_replicate]; omega)]
  congr 1
  have hmin : min a.length (List.replicate 5 ((1 : ℚ)/5)).length = 5 := by
    rw [List.length_replicate]
    exact min_eq_right h
  have hmax : max a.length (List.replicate 5 ((1 : ℚ)/5)).length = a.length := by
    rw [List.length_replicate]
    exact max_eq_left h
  rw [hmin, hmax, show (5 - 1) / 2 = 2 from rfl]
  have hfull : (npConvolveFull a (List.replicate 5 ((1 : ℚ)/5))).length
      = a.length + 4 := by
    unfold npConvolveFull
    rw [List.length_map, List.length_range, List.length_replicate]
    omega
  apply List.ext_getElem
  · rw [List.length_take, List.length_drop, hfull]
    unfold zeroPadSmooth
    rw [List.length_map, List.length_range]
    omega
  · intro i h1 h2
    simp only [List.getElem_take, List.getElem_drop]
    unfold npConvolveFull zeroPadSmooth
    simp only [List.getElem_map, List.getElem_range]
    have hcongr : (List.range a.length).map (fun j =>
        a.getD j 0 * (if j ≤ 2 + i ∧ 2 + i - j < (List.replicate 5 ((1 : ℚ)/5)).length
          then (List.replicate 5 ((1 : ℚ)/5)).getD (2 + i - j) 0 else 0))
        = (List.range a.length).map (fun j =>
          if i ≤ j + 2 ∧ j ≤ i + 2 then a.getD j 0 * ((1 : ℚ)/5) else 0) := by
      apply List.map_congr_left
      intro j hj
      by_cases hc : i ≤ j + 2 ∧ j ≤ i + 2
      · rw [if_pos hc, if_pos (by simp; omega)]
        rw [replicate_getD (by omega)]
      · rw [if_neg hc, if_neg (by simp; omega), mul_zero]
    rw [hcongr, sum_map_ite_filter (fun j => i ≤ j + 2 ∧ j ≤ i + 2)
      (fun j => a.getD j 0 * ((1 : ℚ)/5)), List.sum_map_mul_right, mul_one_div]

lemma rawAcceleration_length (speed : List ℚ) (ts : ℚ) :
    (rawAcceleration speed ts).length = speed.length := by
  unfold rawAcceleration
  rw [List.length_map, List.length_range]

lemma zeroPadSmooth_length (a : List ℚ) : (zeroPadSmooth a).length = a.length := by
  unfold zeroPadSmooth
  rw [List.length_map, List.length_range]

/-- `calculate_acceleration` on a series of length at least 5 succeeds and
returns the zero-padded window-5 smoothing of the raw backward differences. -/
lemma calculate_acceleration_eq {speed : List ℚ} (h : 5 ≤ speed.length) (ts : ℚ) :
    calculate_acceleration speed ts = .ok (zeroPadSmooth (rawAcceleration speed ts)) := by
  unfold calculate_acceleration
  exact npConvolveSame_kernel5 (by rw [rawAcceleration_length]; exact h)

/-! ### Concrete evaluations -/

lemma map_range_eq_replicate {n : ℕ} {f : ℕ → ℚ} {c : ℚ} (h : ∀ i, i < n → f i = c) :
    (List.range n).map f = List.replicate n c := by
  apply List.ext_getElem
  · rw [List.length_map, List.length_range, List.length_replicate]
  · intro i h1 h2
    rw [List.getElem_map, List.getElem_range, List.getElem_replicate]
    exact h i (by simpa using h1)

lemma truncQ_half_eval : truncQ ((11 : ℚ)/20 * 10) = 5 := by
  unfold truncQ
  rw [if_pos (by norm_num), show ((11 : ℚ)/20 * 10) = 11/2 by norm_num,
    Int.floor_eq_iff]
  norm_num

lemma linspaceNN_half_eval :
    linspaceNN 0 ((11 : ℚ)/20) 5 = [0, 11/80, 11/40, 33/80, 11/20] := by
  unfold linspaceNN
  rw [if_neg (by norm_num), if_neg (by norm_num),
    show List.range 5 = [0, 1, 2, 3, 4] from rfl]
  simp only [List.map_cons, List.map_nil]
  norm_num

lemma replicate_zero_getD (n i : ℕ) : (List.replicate n (0 : ℚ)).getD i 0 = 0 := by
  by_cases h : i < n
  · exact replicate_getD h
  · rw [List.getD_eq_default]
    rw [List.length_replicate]
    omega

lemma speedToMs_replicate_zero (n : ℕ) :
    speedToMs (List.replicate n 0) = List.replicate n 0 := by
  unfold speedToMs
  rw [List.map_replicate]
  norm_num

lemma rawAcceleration_replicate_zero (n : ℕ) (ts : ℚ) :
    rawAcceleration (List.replicate n 0) ts = List.replicate n 0 := by
  unfold rawAcceleration
  dsimp only
  rw [speedToMs_replicate_zero, List.length_replicate]
  apply map_range_eq_replicate
  intro i hi
  by_cases h0 : i = 0
  · rw [if_pos h0]
  · rw [if_neg h0, replicate_zero_getD, replicate_zero_getD, sub_self, zero_div]

lemma zeroPadSmooth_replicate_zero (n : ℕ) :
    zeroPadSmooth (List.replicate n 0) = List.replicate n 0 := by
  unfold zeroPadSmooth
  rw [List.length_replicate]
  apply map_range_eq_replicate
  intro i hi
  rw [List.sum_eq_zero, zero_div]
  intro x hx
  simp only [List.mem_map] at hx
  obtain ⟨j, _, rfl⟩ := hx
  exact replicate_zero_getD n j

lemma wheel_rpm_replicate_zero (n : ℕ) (wd : ℚ) (O : Oracle) :
    wheel_rpm (List.replicate n 0) wd O = List.replicate n 0 := by
  unfold wheel_rpm
  rw [speedToMs_replicate_zero, List.map_replicate, zero_div, zero_mul, zero_div]

lemma rpmPreNoise_replicate_zero (n : ℕ) (gr : List ℚ) (fdr wd : ℚ) (O : Oracle) :
    rpmPreNoise (List.replicate n 0) gr fdr wd O = List.replicate n 0 := by
  unfold rpmPreNoise
  rw [List.length_replicate]
  apply map_range_eq_replicate
  intro i hi
  dsimp only
  split
  · rw [wheel_rpm_replicate_zero, replicate_zero_getD, zero_mul, zero_mul]
  · rfl

lemma zipWith_add_zero_right (n : ℕ) (l : List ℚ) (h : l.length = n) :
    List.zipWith (· + ·) l ((List.range n).map (fun _ => (0 : ℚ))) = l := by
  apply List.ext_getElem
  · rw [List.length_zipWith, List.length_map, List.length_range, h, min_self]
  · intro i h1 h2
    rw [List.getElem_zipWith, List.getElem_map]
    exact add_zero _

lemma rpm_zero_eval (n : ℕ) (gr : List ℚ) (fdr wd : ℚ) (O : Oracle)
    (hO : O.noiseRpm = fun _ => 0) :
    calculate_engine_rpm (List.replicate n 0) gr fdr wd O = List.replicate n 800 := by
  unfold calculate_engine_rpm
  dsimp only
  rw [rpmPreNoise_replicate_zero, hO, List.length_replicate,
    zipWith_add_zero_right n _ (List.length_replicate ..), List.map_replicate,
    max_eq_right (by norm_num : (0 : ℚ) ≤ 800)]

lemma fuel_zero_eval (n : ℕ) (rpm : List ℚ) (eff mass : ℚ) (O : Oracle) :
    calculate_fuel_consumption (List.replicate n 0) (List.replicate n 0) rpm eff mass O
      = (List.range n).map (fun i => max (50 + O.noiseFuel i) 0) := by
  unfold calculate_fuel_consumption
  dsimp only
  rw [speedToMs_replicate_zero, List.map_replicate, List.map_replicate,
    List.zipWith_replicate', List.zipWith_replicate', List.map_replicate,
    List.map_replicate, List.length_replicate]
  have hidle : (List.range n).map (fun i =>
      if (List.replicate n (0 : ℚ)).getD i 0 < 3 then ((1 : ℚ)/2) / 3600
      else (List.replicate n
        (max (((15 : ℚ)/1000 * mass * (981/100) + (1/2) * (49/40) * (3/10) * (11/5) * 0 ^ 2
          + mass * 0) * 0) 0 / (34800000 * eff))).getD i 0)
      = List.replicate n (((1 : ℚ)/2) / 3600) := by
    apply map_range_eq_replicate
    intro i hi
    rw [replicate_zero_getD, if_pos (by norm_num)]
  rw [hidle, List.length_replicate]
  have hfc : (List.range n).map (fun i =>
      (List.replicate n (((1 : ℚ)/2) / 3600)).getD i 0 /
        (max ((List.replicate n (0 : ℚ)).getD i 0 / 3600) (1/1000000)) * 100)
      = List.replicate n ((125000 : ℚ)/9) := by
    apply map_range_eq_replicate
    intro i hi
    rw [replicate_zero_getD, replicate_getD hi]
    norm_num
  rw [hfc, List.map_replicate, min_eq_right (by norm_num : (50 : ℚ) ≤ 125000/9),
    List.length_replicate]
  apply List.ext_getElem
  · rw [List.length_map, List.length_zipWith, List.length_map, List.length_range,
      List.length_replicate, List.length_map, List.length_range, min_self]
  · intro i h1 h2
    rw [List.getElem_map, List.getElem_zipWith, List.getElem_map, List.getElem_range,
      List.getElem_replicate, List.getElem_map, List.getElem_range]

lemma scanl_add_replicate_zero (n : ℕ) (c : ℚ) :
    (List.replicate n (0 : ℚ)).scanl (· + ·) c = c :: List.replicate n c := by
  induction n generalizing c with
  | zero => rw [List.replicate_zero, List.scanl_nil, List.replicate_zero]
  | succ n ih =>
    rw [List.replicate_succ, List.scanl_cons, add_zero, ih, List.replicate_succ,
      List.singleton_append]

lemma distance_zero_eval (n : ℕ) (ts : ℚ) :
    calculate_distance (List.replicate n 0) ts = List.replicate n 0 := by
  unfold calculate_distance cumsum
  dsimp only
  rw [speedToMs_replicate_zero, List.map_replicate, zero_mul,
    scanl_add_replicate_zero, List.tail_cons]

lemma vehicleParams_sedan : vehicleParams "sedan" =
    ⟨180, 1500, 35/100, [35/10, 2, 15/10, 1, 75/100], 37/10⟩ := by
  unfold vehicleParams
  rw [if_pos rfl]

lemma vehicleParams_tractor : vehicleParams "tractor" =
    ⟨250, 1300, 38/100, [32/10, 2, 14/10, 1, 8/10, 6/10], 35/10⟩ := by
  unfold vehicleParams
  rw [if_neg (by decide), if_neg (by decide)]

lemma linspace_half_eval :
    linspace 0 ((11 : ℚ)/20) (truncQ ((11 : ℚ)/20 * 10)) =
      .ok [0, 11/80, 11/40, 33/80, 11/20] := by
  rw [truncQ_half_eval, linspace_of_nonneg _ _ (by norm_num),
    show ((5 : ℤ)).toNat = 5 from rfl, linspaceNN_half_eval]

lemma accel_zero_eval :
    calculate_acceleration (List.replicate 5 (0 : ℚ)) (1/10) =
      .ok (List.replicate 5 0) := by
  rw [calculate_acceleration_eq (by simp) (1/10), rawAcceleration_replicate_zero,
    zeroPadSmooth_replicate_zero]

/-- Full pipeline at duration `0.55`, mixed profile, sedan, all-zero oracle. -/
lemma gen_eval_half :
    generate_vehicle_test_data ((11 : ℚ)/20) "mixed" "sedan" zeroOracle =
      .ok { time := [0, 11/80, 11/40, 33/80, 11/20],
            speed := List.replicate 5 0,
            acceleration := List.replicate 5 0,
            engineRPM := List.replicate 5 800,
            fuelConsumption := List.replicate 5 50,
            distance := List.replicate 5 0,
            testID := List.replicate 5 "sedan_mixed",
            vehicleType := List.replicate 5 "sedan",
            profileType := List.replicate 5 "mixed" } := by
  have hsp : generate_speed_profile ((11 : ℚ)/20) "mixed"
      (vehicleParams "sedan").max_speed zeroOracle = .ok (List.replicate 5 0) := by
    rw [gsp_mixed_small (by norm_num) (by norm_num), truncQ_half_eval]
    rfl
  have hrpm : calculate_engine_rpm (List.replicate 5 0)
      (vehicleParams "sedan").gear_ratios (vehicleParams "sedan").final_drive_ratio
      (7/10) zeroOracle = List.replicate 5 800 :=
    rpm_zero_eval 5 _ _ _ _ rfl
  have hfuel : calculate_fuel_consumption (List.replicate 5 0) (List.replicate 5 0)
      (List.replicate 5 800) (vehicleParams "sedan").engine_efficiency
      (vehicleParams "sedan").vehicle_mass zeroOracle = List.replicate 5 50 := by
    rw [fuel_zero_eval]
    apply map_range_eq_replicate
    intro i hi
    rw [show zeroOracle.noiseFuel i = 0 from rfl, add_zero,
      max_eq_left (by norm_num : (0 : ℚ) ≤ 50)]
  have hdist : calculate_distance (List.replicate 5 (0 : ℚ)) (1/10) =
      List.replicate 5 0 := distance_zero_eval 5 _
  simp only [generate_vehicle_test_data, linspace_half_eval, hsp, accel_zero_eval,
    hrpm, hfuel, hdist]
  norm_num
  decide

/-- Full pipeline at duration `0.55` with unrecognized profile and vehicle
names: the parameter lookup falls back to the sports branch and the profile
falls into the mixed (`else`) branch, but the metadata keeps the literal
requested strings. -/
lemma gen_eval_fallback :
    generate_vehicle_test_data ((11 : ℚ)/20) "flying" "tractor" zeroOracle =
      .ok { time := [0, 11/80, 11/40, 33/80, 11/20],
            speed := List.replicate 5 0,
            acceleration := List.replicate 5 0,
            engineRPM := List.replicate 5 800,
            fuelConsumption := List.replicate 5 50,
            distance := List.replicate 5 0,
            testID := List.replicate 5 "tractor_flying",
            vehicleType := List.replicate 5 "tractor",
            profileType := List.replicate 5 "flying" } := by
  have hsp : generate_speed_profile ((11 : ℚ)/20) "flying"
      (vehicleParams "tractor").max_speed zeroOracle = .ok (List.replicate 5 0) := by
    rw [gsp_else_small (by norm_num) (by norm_num) (by decide) (by decide),
      truncQ_half_eval]
    rfl
  have hrpm : calculate_engine_rpm (List.replicate 5 0)
      (vehicleParams "tractor").gear_ratios (vehicleParams "tractor").final_drive_ratio
      (7/10) zeroOracle = List.replicate 5 800 :=
    rpm_zero_eval 5 _ _ _ _ rfl
  have hfuel : calculate_fuel_consumption (List.replicate 5 0) (List.replicate 5 0)
      (List.replicate 5 800) (vehicleParams "tractor").engine_efficiency
      (vehicleParams "tractor").vehicle_mass zeroOracle = List.replicate 5 50 := by
    rw [fuel_zero_eval]
    apply map_range_eq_replicate
    intro i hi
    rw [show zeroOracle.noiseFuel i = 0 from rfl, add_zero,
      max_eq_left (by norm_num : (0 : ℚ) ≤ 50)]
  have hdist : calculate_distance (List.replicate 5 (0 : ℚ)) (1/10) =
      List.replicate 5 0 := distance_zero_eval 5 _
  simp only [generate_vehicle_test_data, linspace_half_eval, hsp, accel_zero_eval,
    hrpm, hfuel, hdist]
  norm_num
  decide

/-- Full pipeline at duration `0.55`, mixed profile, sedan, with a fuel-noise
stream that is identically `+1`: every pre-noise fuel value is capped at 50,
and the noise then pushes every sample to 51, above the claimed upper bound. -/
lemma gen_eval_noise :
    generate_vehicle_test_data ((11 : ℚ)/20) "mixed" "sedan" fuelNoiseOracle =
      .ok { time := [0, 11/80, 11/40, 33/80, 11/20],
            speed := List.replicate 5 0,
            acceleration := List.replicate 5 0,
            engineRPM := List.replicate 5 800,
            fuelConsumption := List.replicate 5 51,
            distance := List.replicate 5 0,
            testID := List.replicate 5 "sedan_mixed",
            vehicleType := List.replicate 5 "sedan",
            profileType := List.replicate 5 "mixed" } := by
  have hsp : generate_speed_profile ((11 : ℚ)/20) "mixed"
      (vehicleParams "sedan").max_speed fuelNoiseOracle = .ok (List.replicate 5 0) := by
    rw [gsp_mixed_small (by norm_num) (by norm_num), truncQ_half_eval]
    rfl
  have hrpm : calculate_engine_rpm (List.replicate 5 0)
      (vehicleParams "sedan").gear_ratios (vehicleParams "sedan").final_drive_ratio
      (7/10) fuelNoiseOracle = List.replicate 5 800 :=
    rpm_zero_eval 5 _ _ _ _ rfl
  have hfuel : calculate_fuel_consumption (List.replicate 5 0) (List.replicate 5 0)
      (List.replicate 5 800) (vehicleParams "sedan").engine_efficiency
      (vehicleParams "sedan").vehicle_mass fuelNoiseOracle = List.replicate 5 51 := by
    rw [fuel_zero_eval]
    apply map_range_eq_replicate
    intro i hi
    rw [show fuelNoiseOracle.noiseFuel i = 1 from rfl,
      show (50 : ℚ) + 1 = 51 by norm_num, max_eq_left (by norm_num : (0 : ℚ) ≤ 51)]
  have hdist : calculate_distance (List.replicate 5 (0 : ℚ)) (1/10) =
      List.replicate 5 0 := distance_zero_eval 5 _
  simp only [generate_vehicle_test_data, linspace_half_eval, hsp, accel_zero_eval,
    hrpm, hfuel, hdist]
  norm_num
  decide

lemma truncQ_zero_eval : truncQ ((0 : ℚ) * 10) = 0 := by
  rw [show ((0 : ℚ) * 10) = 0 by norm_num]
  unfold truncQ
  rw [if_pos le_rfl, Int.floor_zero]

/-! ### Claim theorems -/

/-- Claim C1, counterexample: at duration `0.55` the pipeline succeeds and the
table has 5 rows, but `round(0.55 * 10) = 6`; the code truncates
(`int(duration * 10)`) rather than rounding. -/
theorem c1_counterexample :
    (generate_vehicle_test_data ((11 : ℚ)/20) "mixed" "sedan" zeroOracle).toOption.map
      (fun t => t.time.length) = some 5 ∧
    round (((11 : ℚ)/20) * 10) = 6 ∧ (5 : ℤ) ≠ 6 := by
  refine ⟨?_, ?_, by decide⟩
  · rw [gen_eval_half]
    rfl
  · rw [show ((11 : ℚ)/20 * 10) = 11/2 by norm_num, round_eq,
      show ((11 : ℚ)/2 + 1/2) = 6 by norm_num]
    rw [show ((6 : ℚ)) = ((6 : ℤ) : ℚ) by norm_num, Int.floor_intCast]

/-- Claim C1, amended: whenever the pipeline produces a table, every column
(including the speed series) has exactly `int(duration * 10)` rows — truncation
toward zero, not rounding. -/
theorem c1_row_count (d : ℚ) (pt vt : String) (O : Oracle) (t : ResultTable)
    (h : generate_vehicle_test_data d pt vt O = .ok t) :
    t.time.length = (truncQ (d * 10)).toNat ∧
    t.speed.length = t.time.length ∧ t.acceleration.length = t.time.length ∧
    t.engineRPM.length = t.time.length ∧ t.fuelConsumption.length = t.time.length ∧
    t.distance.length = t.time.length ∧ t.testID.length = t.time.length ∧
    t.vehicleType.length = t.time.length ∧ t.profileType.length = t.time.length := by
  obtain ⟨time, speed, accel, hlin, hsp, hacc, h1, h2, h3, h4, h5, rfl⟩ := gen_ok_elim h
  obtain ⟨hnn, rfl⟩ := linspace_ok hlin
  exact ⟨linspaceNN_length .., h1, h2, h3, h4, h5, List.length_replicate ..,
    List.length_replicate .., List.length_replicate ..⟩

/-- Witness for C1 amended, at duration `0.55`. -/
theorem c1_row_count_witness :
    (generate_vehicle_test_data ((11 : ℚ)/20) "mixed" "sedan" zeroOracle).toOption.map
      (fun t => t.time.length) = some ((truncQ (((11 : ℚ)/20) * 10)).toNat) := by
  have hc := c1_row_count ((11 : ℚ)/20) "mixed" "sedan" zeroOracle _ gen_eval_half
  rw [gen_eval_half]
  exact congrArg some hc.1

/-- Claim C2, counterexample: a generated series (duration `0.55`, mixed,
sedan, fuel-noise stream identically `+1`) whose every FuelConsumption value
is 51, outside the claimed interval `[0, 50]`. -/
theorem c2_counterexample :
    (generate_vehicle_test_data ((11 : ℚ)/20) "mixed" "sedan" fuelNoiseOracle).toOption.map
      (fun t => t.fuelConsumption) = some (List.replicate 5 51) ∧
    ¬ ((51 : ℚ) ≤ 50) := by
  refine ⟨?_, by norm_num⟩
  rw [gen_eval_noise]
  rfl

/-- Claim C2, amended: every FuelConsumption value is non-negative, and the
power/idle-derived value is capped at 50 before the noise is added (only the
lower clamp at 0 follows the noise), so a sample can exceed 50 by at most the
added noise: every value is at most `max (50 + noise) 0`. -/
theorem c2_fuel_clamp (speed acceleration rpm : List ℚ) (eff mass : ℚ) (O : Oracle)
    (i : ℕ)
    (hi : i < (calculate_fuel_consumption speed acceleration rpm eff mass O).length) :
    0 ≤ (calculate_fuel_consumption speed acceleration rpm eff mass O).getD i 0 ∧
      (calculate_fuel_consumption speed acceleration rpm eff mass O).getD i 0 ≤
        max (50 + O.noiseFuel i) 0 :=
  fuel_bounds hi

/-- Witness for C2 amended. -/
theorem c2_fuel_clamp_witness :
    0 ≤ (calculate_fuel_consumption (List.replicate 1 0) (List.replicate 1 0) [800]
      (7/20) 1500 fuelNoiseOracle).getD 0 0 ∧
    (calculate_fuel_consumption (List.replicate 1 0) (List.replicate 1 0) [800]
      (7/20) 1500 fuelNoiseOracle).getD 0 0 ≤ max (50 + fuelNoiseOracle.noiseFuel 0) 0 :=
  c2_fuel_clamp (List.replicate 1 0) (List.replicate 1 0) [800] (7/20) 1500
    fuelNoiseOracle 0 (by rw [fuel_zero_eval]; simp)

/-- Claim C3, counterexample: at duration 0 there is no upfront rejection —
the speed profile is generated (successfully, as an empty series) and the
failure only arises afterwards, inside the smoothing convolution of the
acceleration stage, as a numpy `ValueError`, not as an InvalidScenario check
before generation begins. -/
theorem c3_counterexample :
    generate_speed_profile 0 "mixed" (vehicleParams "sedan").max_speed zeroOracle
      = .ok [] ∧
    generate_vehicle_test_data 0 "mixed" "sedan" zeroOracle =
      .error "ValueError: a cannot be empty" := by
  have hsp := gsp_empty "mixed" (vehicleParams "sedan").max_speed zeroOracle
    truncQ_zero_eval le_rfl
  refine ⟨hsp, ?_⟩
  have hlin : linspace 0 0 (truncQ ((0 : ℚ) * 10)) = .ok [] := by
    rw [truncQ_zero_eval, linspace_of_nonneg _ _ le_rfl]
    rfl
  simp only [generate_vehicle_test_data, hlin, hsp, calculate_acceleration_nil]

/-- Claim C3, amended: every non-positive duration makes the pipeline fail
with an error (negative durations at the time-array construction, duration 0
later in the smoothing convolution), and no table is produced — but not via a
dedicated InvalidScenario validation before generation begins. -/
theorem c3_nonpositive_rejected (d : ℚ) (pt vt : String) (O : Oracle) (hd : d ≤ 0) :
    (generate_vehicle_test_data d pt vt O).toOption = none :=
  gen_nonpos_error hd pt vt O

/-- Witness for C3 amended, at duration 0. -/
theorem c3_nonpositive_rejected_witness :
    (generate_vehicle_test_data 0 "mixed" "sedan" zeroOracle).toOption = none :=
  c3_nonpositive_rejected 0 "mixed" "sedan" zeroOracle le_rfl

/-- Claim C4, confirmed: per sample, the selected gear is `j + 1` for the
largest index `j` with `speed ≥ thresholds[j]` (thresholds
`[0, 20, 40, 60, 80, 110]`) and `j <` the number of gear ratios — formalised
with `Nat.findGreatest`, the greatest qualifying index bounded by the ratio
count — and the pre-noise, pre-floor rpm is
`wheelRPM * gearRatios[gear-1] * finalDriveRatio`. -/
theorem c4_gear_selection (speed gear_ratios : List ℚ) (fdr wd : ℚ) (O : Oracle)
    (i : ℕ) (hi : i < speed.length) (hv : 0 ≤ speed.getD i 0)
    (hr : gear_ratios ≠ []) :
    gearSelect (speed.getD i 0) gear_ratios.length =
      Nat.findGreatest
        (fun j => speed_thresholds.getD j 0 ≤ speed.getD i 0 ∧ j < gear_ratios.length)
        5 + 1 ∧
    (rpmPreNoise speed gear_ratios fdr wd O).getD i 0 =
      (wheel_rpm speed wd O).getD i 0 *
        gear_ratios.getD (gearSelect (speed.getD i 0) gear_ratios.length - 1) 0 * fdr :=
  ⟨gearSelect_eq_findGreatest _ _, rpmPreNoise_getD hi hv hr⟩

/-- Witness for C4, at speed 50 km/h with the sedan gear table. -/
theorem c4_gear_selection_witness :
    gearSelect (([50] : List ℚ).getD 0 0)
        ([35/10, 2, 15/10, 1, 75/100] : List ℚ).length =
      Nat.findGreatest
        (fun j => speed_thresholds.getD j 0 ≤ ([50] : List ℚ).getD 0 0 ∧
          j < ([35/10, 2, 15/10, 1, 75/100] : List ℚ).length) 5 + 1 ∧
    (rpmPreNoise [50] [35/10, 2, 15/10, 1, 75/100] (37/10) (7/10) zeroOracle).getD 0 0 =
      (wheel_rpm [50] (7/10) zeroOracle).getD 0 0 *
        ([35/10, 2, 15/10, 1, 75/100] : List ℚ).getD
          (gearSelect (([50] : List ℚ).getD 0 0)
            ([35/10, 2, 15/10, 1, 75/100] : List ℚ).length - 1) 0 * (37/10) :=
  c4_gear_selection [50] [35/10, 2, 15/10, 1, 75/100] (37/10) (7/10) zeroOracle 0
    (by simp) (by rw [show ([50] : List ℚ).getD 0 0 = 50 from rfl]; norm_num) (by simp)

/-- Claim C5, counterexample: at duration `0.55` the pipeline succeeds and the
first two Time samples differ by `11/80 = 0.1375` seconds, not `0.1`. -/
theorem c5_counterexample :
    (generate_vehicle_test_data ((11 : ℚ)/20) "mixed" "sedan" zeroOracle).toOption.map
      (fun t => t.time.getD 1 0 - t.time.getD 0 0) = some ((11 : ℚ)/80) ∧
    (11 : ℚ)/80 ≠ 1/10 := by
  refine ⟨?_, by norm_num⟩
  have hval : ([0, 11/80, 11/40, 33/80, 11/20] : List ℚ).getD 1 0 -
      ([0, 11/80, 11/40, 33/80, 11/20] : List ℚ).getD 0 0 = (11 : ℚ)/80 := by
    rw [show ([0, 11/80, 11/40, 33/80, 11/20] : List ℚ).getD 1 0 = 11/80 from rfl,
      show ([0, 11/80, 11/40, 33/80, 11/20] : List ℚ).getD 0 0 = 0 from rfl, sub_zero]
  rw [gen_eval_half]
  exact congrArg some hval

/-- Claim C5, amended: the Time column is evenly spaced, but the step between
consecutive samples is `duration / (rowcount - 1)` (with
`rowcount = int(duration * 10)`), not `0.1` seconds. -/
theorem c5_time_step (d : ℚ) (pt vt : String) (O : Oracle) (t : ResultTable)
    (h : generate_vehicle_test_data d pt vt O = .ok t) (i : ℕ)
    (hi : i + 1 < t.time.length) :
    t.time.getD (i + 1) 0 - t.time.getD i 0 = d / ((t.time.length : ℚ) - 1) := by
  obtain ⟨time, speed, accel, hlin, hsp, hacc, _, _, _, _, _, rfl⟩ := gen_ok_elim h
  obtain ⟨hnn, rfl⟩ := linspace_ok hlin
  rw [linspaceNN_length] at hi
  show (linspaceNN 0 d (truncQ (d * 10)).toNat).getD (i + 1) 0 -
    (linspaceNN 0 d (truncQ (d * 10)).toNat).getD i 0 = _
  rw [linspaceNN_step hi, linspaceNN_length, sub_zero]

/-- Witness for C5 amended, at duration `0.55`. -/
theorem c5_time_step_witness :
    (generate_vehicle_test_data ((11 : ℚ)/20) "mixed" "sedan" zeroOracle).toOption.elim
      False
      (fun t => t.time.getD 1 0 - t.time.getD 0 0 =
        (11 : ℚ)/20 / ((t.time.length : ℚ) - 1)) := by
  rw [gen_eval_half]
  exact c5_time_step _ _ _ _ _ gen_eval_half 0 (by simp)

/-- Claim C6, counterexample: on the speed series `[0, 18, 36, 54, 72, 90]`
the acceleration deriver does not return the moving average whose boundary
samples average over only the available neighbors: `np.convolve` with
`mode='same'` zero-pads, so the first sample is the window sum divided by 5
(here 20), not the mean of the three available entries (here 100/3). -/
theorem c6_counterexample :
    calculate_acceleration [0, 18, 36, 54, 72, 90] (1/10) ≠
      .ok (smoothAvailableNeighbors (rawAcceleration [0, 18, 36, 54, 72, 90] (1/10))) := by
  intro h
  rw [calculate_acceleration_eq (by simp) (1/10)] at h
  injection h with h
  have h0 := congrArg (fun l => l.getD 0 0) h
  simp only at h0
  have hraw : rawAcceleration [0, 18, 36, 54, 72, 90] (1/10) =
      [0, 50, 50, 50, 50, 50] := by
    unfold rawAcceleration
    dsimp only
    rw [show speedToMs [0, 18, 36, 54, 72, 90] = [0, 5, 10, 15, 20, 25] by
      unfold speedToMs
      simp only [List.map_cons, List.map_nil]
      norm_num]
    rw [show (([0, 18, 36, 54, 72, 90] : List ℚ)).length = 6 from rfl,
      show List.range 6 = [0, 1, 2, 3, 4, 5] from rfl]
    simp only [List.map_cons, List.map_nil]
    norm_num [show ([0, 5, 10, 15, 20, 25] : List ℚ).getD 0 0 = 0 from rfl,
      show ([0, 5, 10, 15, 20, 25] : List ℚ).getD 1 0 = 5 from rfl,
      show ([0, 5, 10, 15, 20, 25] : List ℚ).getD 2 0 = 10 from rfl,
      show ([0, 5, 10, 15, 20, 25] : List ℚ).getD 3 0 = 15 from rfl,
      show ([0, 5, 10, 15, 20, 25] : List ℚ).getD 4 0 = 20 from rfl,
      show ([0, 5, 10, 15, 20, 25] : List ℚ).getD 5 0 = 25 from rfl]
  rw [hraw] at h0
  have hzp : (zeroPadSmooth [0, 50, 50, 50, 50, 50]).getD 0 0 = 20 := by
    unfold zeroPadSmooth
    rw [show (([0, 50, 50, 50, 50, 50] : List ℚ)).length = 6 from rfl]
    rw [List.getD_eq_getElem _ _ (by simp)]
    simp only [List.getElem_map, List.getElem_range]
    rw [show (List.range 6).filter (fun j => decide (0 ≤ j + 2 ∧ j ≤ 0 + 2))
        = [0, 1, 2] by decide]
    simp only [List.map_cons, List.map_nil, List.sum_cons, List.sum_nil]
    norm_num [show ([0, 50, 50, 50, 50, 50] : List ℚ).getD 0 0 = 0 from rfl,
      show ([0, 50, 50, 50, 50, 50] : List ℚ).getD 1 0 = 50 from rfl,
      show ([0, 50, 50, 50, 50, 50] : List ℚ).getD 2 0 = 50 from rfl]
  have hsm : (smoothAvailableNeighbors [0, 50, 50, 50, 50, 50]).getD 0 0 = 100/3 := by
    unfold smoothAvailableNeighbors
    rw [show (([0, 50, 50, 50, 50, 50] : List ℚ)).length = 6 from rfl]
    rw [List.getD_eq_getElem _ _ (by simp)]
    simp only [List.getElem_map, List.getElem_range]
    rw [show (List.range 6).filter (fun j => decide (0 ≤ j + 2 ∧ j ≤ 0 + 2))
        = [0, 1, 2] by decide]
    simp only [List.map_cons, List.map_nil, List.sum_cons, List.sum_nil,
      List.length_cons, List.length_nil]
    norm_num [show ([0, 50, 50, 50, 50, 50] : List ℚ).getD 0 0 = 0 from rfl,
      show ([0, 50, 50, 50, 50, 50] : List ℚ).getD 1 0 = 50 from rfl,
      show ([0, 50, 50, 50, 50, 50] : List ℚ).getD 2 0 = 50 from rfl]
  rw [hzp, hsm] at h0
  norm_num at h0

/-- Claim C6, amended: for every speed series with at least 5 samples, the
acceleration deriver returns a series of the same length obtained from the
backward-difference series (first raw difference 0) by the zero-padded
centered window-5 smoother: each output is the sum of the window entries that
fall inside the series, divided by 5 — boundary samples are not averaged over
only their available neighbors. -/
theorem c6_zero_pad_smoothing (speed : List ℚ) (ts : ℚ) (h : 5 ≤ speed.length) :
    calculate_acceleration speed ts = .ok (zeroPadSmooth (rawAcceleration speed ts)) ∧
    (zeroPadSmooth (rawAcceleration speed ts)).length = speed.length :=
  ⟨calculate_acceleration_eq h ts, by rw [zeroPadSmooth_length, rawAcceleration_length]⟩

/-- Witness for C6 amended. -/
theorem c6_zero_pad_smoothing_witness :
    calculate_acceleration [0, 18, 36, 54, 72, 90] (1/10) =
      .ok (zeroPadSmooth (rawAcceleration [0, 18, 36, 54, 72, 90] (1/10))) ∧
    (zeroPadSmooth (rawAcceleration [0, 18, 36, 54, 72, 90] (1/10))).length =
      ([0, 18, 36, 54, 72, 90] : List ℚ).length :=
  c6_zero_pad_smoothing [0, 18, 36, 54, 72, 90] (1/10) (by simp)

/-- Claim C7, confirmed: for every scenario that produces a table, the
Distance column is non-decreasing across consecutive samples (the speed series
is clamped at 0, so every increment of the cumulative sum is non-negative). -/
theorem c7_distance_monotone (d : ℚ) (pt vt : String) (O : Oracle) (t : ResultTable)
    (h : generate_vehicle_test_data d pt vt O = .ok t) :
    List.Chain' (· ≤ ·) t.distance := by
  obtain ⟨time, speed, accel, hlin, hsp, hacc, _, _, _, _, _, rfl⟩ := gen_ok_elim h
  exact calculate_distance_chain (generate_speed_profile_ok_nonneg hsp) (by norm_num)

/-- Witness for C7, at duration `0.55`. -/
theorem c7_distance_monotone_witness :
    (generate_vehicle_test_data ((11 : ℚ)/20) "mixed" "sedan" zeroOracle).toOption.elim
      False (fun t => List.Chain' (· ≤ ·) t.distance) := by
  rw [gen_eval_half]
  exact c7_distance_monotone _ _ _ _ _ gen_eval_half

/-- Claim C8, confirmed: for every generation run that produces a table, the
TestID of every row is the literal requested `vehicleType ++ "_" ++ profileType`
string (one copy per row), even when the parameter lookup internally falls back
to the default vehicle or profile branch. -/
theorem c8_test_id (d : ℚ) (pt vt : String) (O : Oracle) (t : ResultTable)
    (h : generate_vehicle_test_data d pt vt O = .ok t) :
    t.testID = List.replicate t.time.length (vt ++ "_" ++ pt) := by
  obtain ⟨time, speed, accel, _, _, _, _, _, _, _, _, rfl⟩ := gen_ok_elim h
  rfl

/-- Witness for C8, with unrecognized vehicle and profile names that both fall
back internally, yet keep the literal strings in TestID. -/
theorem c8_test_id_witness :
    (generate_vehicle_test_data ((11 : ℚ)/20) "flying" "tractor" zeroOracle).toOption.elim
      False
      (fun t => t.testID = List.replicate t.time.length ("tractor" ++ "_" ++ "flying")) := by
  rw [gen_eval_fallback]
  exact c8_test_id _ _ _ _ _ gen_eval_fallback

/-- Claim C9, confirmed: for the mixed profile with `0 < duration < 120` the
segment loop runs zero times, no noise is added, and the generated speed
series is identically zero — a stationary vehicle. -/
theorem c9_mixed_short_stationary (d : ℚ) (ms : ℚ) (O : Oracle) (hd0 : 0 < d)
    (hd : d < 120) :
    generate_speed_profile d "mixed" ms O =
      .ok (List.replicate (truncQ (d * 10)).toNat 0) :=
  gsp_mixed_small hd0 hd ms O

/-- Witness for C9, at duration `0.55`. -/
theorem c9_mixed_short_stationary_witness :
    generate_speed_profile ((11 : ℚ)/20) "mixed" 180 zeroOracle =
      .ok (List.replicate 5 0) := by
  have h := c9_mixed_short_stationary ((11 : ℚ)/20) 180 zeroOracle (by norm_num)
    (by norm_num)
  rw [truncQ_half_eval] at h
  exact h

/-- Claim C10, confirmed: for a non-empty gear list and a non-negative speed
sample, the selected gear satisfies `1 ≤ gear ≤ len(gearRatios)`, so the
`gear ≤ len(gear_ratios)` guard always passes and the pre-noise rpm is the
wheel-rpm formula — the skip branch (which would leave the sample at 0) is
unreachable. -/
theorem c10_gear_guard (speed gear_ratios : List ℚ) (fdr wd : ℚ) (O : Oracle)
    (i : ℕ) (hi : i < speed.length) (hv : 0 ≤ speed.getD i 0)
    (hr : gear_ratios ≠ []) :
    1 ≤ gearSelect (speed.getD i 0) gear_ratios.length ∧
    gearSelect (speed.getD i 0) gear_ratios.length ≤ gear_ratios.length ∧
    (rpmPreNoise speed gear_ratios fdr wd O).getD i 0 =
      (wheel_rpm speed wd O).getD i 0 *
        gear_ratios.getD (gearSelect (speed.getD i 0) gear_ratios.length - 1) 0 * fdr := by
  have hg : 1 ≤ gear_ratios.length := by
    cases gear_ratios with
    | nil => exact absurd rfl hr
    | cons a l => simp
  exact ⟨gearSelect_pos _ _, gearSelect_le hg hv, rpmPreNoise_getD hi hv hr⟩

/-- Witness for C10, at idle speed 0 with the sports gear table. -/
theorem c10_gear_guard_witness :
    1 ≤ gearSelect (([0] : List ℚ).getD 0 0)
        ([32/10, 2, 14/10, 1, 8/10, 6/10] : List ℚ).length ∧
    gearSelect (([0] : List ℚ).getD 0 0)
        ([32/10, 2, 14/10, 1, 8/10, 6/10] : List ℚ).length ≤
      ([32/10, 2, 14/10, 1, 8/10, 6/10] : List ℚ).length ∧
    (rpmPreNoise [0] [32/10, 2, 14/10, 1, 8/10, 6/10] (35/10) (7/10) zeroOracle).getD 0 0 =
      (wheel_rpm [0] (7/10) zeroOracle).getD 0 0 *
        ([32/10, 2, 14/10, 1, 8/10, 6/10] : List ℚ).getD
          (gearSelect (([0] : List ℚ).getD 0 0)
            ([32/10, 2, 14/10, 1, 8/10, 6/10] : List ℚ).length - 1) 0 * (35/10) :=
  c10_gear_guard [0] [32/10, 2, 14/10, 1, 8/10, 6/10] (35/10) (7/10) zeroOracle 0
    (by simp) (by rw [show ([0] : List ℚ).getD 0 0 = 0 from rfl]) (by simp)

end VehicleData
